import Mathlib

/-!
Verification development for the social-post orchestration engine
(`api/services`): the state record, the simulated checker tools, the two
verification wrappers, the two routing policies, the graph loops of the
linear and the supervised workflow, and the post-hoc reporters.

Conventions of the embedding:
* Python strings are Lean `String`s; `if s:` truthiness of a string field
  becomes `s ≠ ""` (the fields in question are only ever absent or a string).
* A dict key that may be absent or `None` becomes an `Option`.
* The message list is modelled as a list of message strings; `str(messages)`
  is a bracketed, comma-separated rendering (only its substring content is
  ever inspected by the code).
-/

/-- Result of one checker tool: the strings "pass" / "revise". -/
inductive Check where
  | pass
  | revise
deriving DecidableEq, Repr

/-- Rendering of a `Check` back to the Python string. -/
def Check.str : Check → String
  | .pass => "pass"
  | .revise => "revise"

/-- Rendering of an optional check with the default used by `dict.get`. -/
def optCheckStr (o : Option Check) (dflt : String) : String :=
  match o with
  | none => dflt
  | some c => c.str

/-- Auxiliary substring search over character lists. -/
def containsAux (pat : List Char) : List Char → Bool
  | [] => pat.isEmpty
  | c :: t => pat.isPrefixOf (c :: t) || containsAux pat t

/-- Python `pat in s` on strings: substring containment. -/
def strContains (s pat : String) : Bool :=
  containsAux pat.data s.data

/-- Python `s.lower()` (ASCII case folding suffices for the code's
literals), character by character. -/
def strLower (s : String) : String :=
  String.mk (s.data.map Char.toLower)

/-- Python `str(messages)` for a list of message strings. -/
def msgsStr (ms : List String) : String :=
  "[" ++ String.intercalate ", " ms ++ "]"

/-- The `verification_status` sub-record built by
`SupervisorAgent.get_workflow_status`. -/
structure VerifStatus where
  tech_check : String
  style_check : String
  overall : String
deriving DecidableEq, Repr

/-- The record returned by `SupervisorAgent.get_workflow_status`
(`supervisor.py`). -/
structure WorkflowStatus where
  completed_steps : List String
  current_revision : Nat
  verification_status : VerifStatus
  ready_for_completion : Bool
deriving DecidableEq, Repr

/-- The graph state `PostState` (`models.py`), with optional fields made
explicit: `summary`/`post` are `""` while absent (Python falsiness),
`verify_result`, `tech_check`, `style_check` are `none` until the verify
node sets them, `supervisor_status` is `none` until the enhanced verify
node sets it. -/
structure PostState where
  messages : List String
  summary : String
  post : String
  verify_result : Option Check
  revision_count : Nat
  tech_check : Option Check
  style_check : Option Check
  supervisor_status : Option WorkflowStatus
deriving DecidableEq, Repr

/-- `tools.mock_paper_lookup`: fixed simulated abstract. -/
def mock_paper_lookup (_title : String) : String :=
  "LoRA is a low-rank adaptation technique for fine-tuning large language models. " ++
  "It enables efficient training by injecting low-rank matrices into transformer weights."

/-- `tools.verify_technical_correctness`: "pass" iff the summary contains
"LoRA". -/
def verify_technical_correctness (summary : String) : Check :=
  if strContains summary "LoRA" then .pass else .revise

/-- `tools.check_social_post_style`: "revise" when the post exceeds 300
characters or lacks the "@AIMakerspace" marker, else "pass". -/
def check_social_post_style (post : String) : Check :=
  if post.length > 300 || !(strContains post "@AIMakerspace") then .revise else .pass

/-- `AgentFactory.get_verify_wrapper`'s inner `verify_wrapper`
(`agents.py` lines 84 to 104): runs both checker tools, decides
pass / forced pass / revise from the input `revision_count`, and returns
the state with the four verification fields overwritten. -/
def verify_wrapper (state : PostState) : PostState :=
  let summary := state.summary
  let post := state.post
  let tech_result := verify_technical_correctness summary
  let style_result := check_social_post_style post
  let revision_count := state.revision_count
  let verify_result :=
    if tech_result = Check.pass ∧ style_result = Check.pass then Check.pass
    else if revision_count ≥ 3 then Check.pass
    else Check.revise
  { state with
      verify_result := some verify_result
      revision_count := revision_count + 1
      tech_check := some tech_result
      style_check := some style_result }

/-- `SupervisorAgent.should_continue` (`supervisor.py`). -/
def should_continue (state : PostState) : Bool :=
  if state.verify_result = some Check.pass then false
  else if state.revision_count ≥ 3 then false
  else if state.summary = "" then true
  else if state.post = "" then true
  else true

/-- `SupervisorAgent.get_workflow_status` (`supervisor.py`): completed-step
list, current revision, per-checker status strings, readiness flag. -/
def get_workflow_status (state : PostState) : WorkflowStatus :=
  { completed_steps :=
      ([("research", state.summary != ""),
        ("summarize", state.summary != ""),
        ("post", state.post != ""),
        ("verify", state.verify_result.isSome)].filter (fun p => p.2)).map (fun p => p.1)
    current_revision := state.revision_count
    verification_status :=
      { tech_check := optCheckStr state.tech_check "not_done"
        style_check := optCheckStr state.style_check "not_done"
        overall := optCheckStr state.verify_result "not_done" }
    ready_for_completion := !(should_continue state) }

/-- `SupervisedGraphBuilder.enhanced_verify_wrapper`
(`supervised_graph_builder.py` lines 50 to 88): same checker calls and
decision as `verify_wrapper`, then attaches `supervisor_status` computed
from the updated state. -/
def enhanced_verify_wrapper (state : PostState) : PostState :=
  let summary := state.summary
  let post := state.post
  let revision_count := state.revision_count
  let tech_result := verify_technical_correctness summary
  let style_result := check_social_post_style post
  let verification_passed := tech_result = Check.pass ∧ style_result = Check.pass
  let max_retries_reached := revision_count ≥ 3
  let verify_result :=
    if verification_passed then Check.pass
    else if max_retries_reached then Check.pass
    else Check.revise
  let updated_state :=
    { state with
        verify_result := some verify_result
        revision_count := revision_count + 1
        tech_check := some tech_result
        style_check := some style_result }
  { updated_state with supervisor_status := some (get_workflow_status updated_state) }

/-- Targets the supervised router can name: the four node names of the
graph plus the terminal signal `END`. -/
inductive RouteTarget where
  | research
  | summarize
  | draft_post
  | verify
  | END
deriving DecidableEq, Repr

/-- `SupervisedGraphBuilder.supervisor_router`
(`supervised_graph_builder.py` lines 17 to 48), transcribed branch for
branch: summary absent first (with the invalid-state and messages
checks), then post absent, then the `verify_result` if/elif chain in the
source's order. -/
def supervisor_router (state : PostState) : RouteTarget :=
  if state.summary = "" then
    if state.messages = [] then RouteTarget.END
    else if !(strContains (msgsStr state.messages) "research") then RouteTarget.research
    else RouteTarget.summarize
  else if state.post = "" then RouteTarget.draft_post
  else if state.verify_result = some Check.pass then RouteTarget.END
  else if state.verify_result = some Check.revise ∧ state.revision_count < 3 then
    RouteTarget.draft_post
  else if state.revision_count ≥ 3 then RouteTarget.END
  else RouteTarget.verify

/-- Agent names the supervisor's routing method can return
(`supervisor.py`). -/
inductive AgentName where
  | research
  | summarize
  | post
  | verify
  | complete
deriving DecidableEq, Repr

/-- `SupervisorAgent._simple_routing_logic` (`supervisor.py` lines 149 to
158). -/
def simple_routing_logic (state : PostState) : AgentName :=
  if state.summary = "" then AgentName.research
  else if state.post = "" then AgentName.post
  else if state.verify_result = none then AgentName.verify
  else AgentName.complete

/-- `SupervisorAgent.route_next_agent` (`supervisor.py` lines 83 to 147).
The two external conditions are made explicit parameters:
`supervisorAvailable` is false when creating the advisory agent fails for
a missing API key (the `ValueError` branch), and `advisorResponse` is
`none` when `supervisor.invoke` raises (the `except Exception` branch),
otherwise `some` of the free-text output. The vocabulary match lowercases
the output and tests the four substrings in the source's if/elif order;
anything else yields `complete`. -/
def route_next_agent (supervisorAvailable : Bool) (advisorResponse : Option String)
    (state : PostState) : AgentName :=
  if !supervisorAvailable then simple_routing_logic state
  else
    match advisorResponse with
    | none => simple_routing_logic state
    | some text =>
      let response_text := strLower text
      if strContains response_text "research" then AgentName.research
      else if strContains response_text "summarize" then AgentName.summarize
      else if strContains response_text "post" then AgentName.post
      else if strContains response_text "verify" then AgentName.verify
      else AgentName.complete

/-- One pass of the linear graph's revision loop (`graph_builder.py`:
`draft_post → verify`, then the conditional edge maps `revise` back to
`draft_post` and `pass` to `END`). `draft i` is the post text the drafting
agent produces on its `i`-th execution; the returned `Nat` counts draft
executions. `fuel` stands in for the executor's hard iteration ceiling. -/
def linearLoop (draft : Nat → String) : Nat → Nat → PostState → PostState × Nat
  | 0, _, st => (st, 0)
  | fuel + 1, i, st =>
    let st2 := verify_wrapper { st with post := draft i }
    if st2.verify_result = some Check.revise then
      let r := linearLoop draft fuel (i + 1) st2
      (r.1, r.2 + 1)
    else (st2, 1)

/-- State reaching the first `draft_post` node: research and summarize
have run (nonempty messages, `summary` set), `revision_count` starts at 0
as seeded by `PostGeneratorService.generate_post`, and the
verification fields are still unset. -/
def postSummarizeState (summary : String) : PostState :=
  { messages := ["Please write a LinkedIn post about the paper"]
    summary := summary
    post := ""
    verify_result := none
    revision_count := 0
    tech_check := none
    style_check := none
    supervisor_status := none }

/-- Full linear run from the first draft on: final state plus the number
of draft executions. -/
def runLinear (summary : String) (draft : Nat → String) : PostState × Nat :=
  linearLoop draft 25 0 (postSummarizeState summary)

/-- One pass of the supervised graph's revision loop
(`supervised_graph_builder.build_supervised_graph`): `draft_post`, the
enhanced verify node, then the conditional edge driven by
`supervisor_router` whose mapping lists only `draft_post` and `END`; a
router answer outside that mapping (or exhausted fuel) is a run failure,
returned as `none`. -/
def supervisedLoop (draft : Nat → String) : Nat → Nat → PostState → Option (PostState × Nat)
  | 0, _, _ => none
  | fuel + 1, i, st =>
    let st2 := enhanced_verify_wrapper { st with post := draft i }
    match supervisor_router st2 with
    | RouteTarget.draft_post =>
      (supervisedLoop draft fuel (i + 1) st2).map (fun r => (r.1, r.2 + 1))
    | RouteTarget.END => some (st2, 1)
    | _ => none

/-- Full supervised run from the first draft on. -/
def runSupervised (summary : String) (draft : Nat → String) : Option (PostState × Nat) :=
  supervisedLoop draft 25 0 (postSummarizeState summary)

/-- `PostGeneratorService._determine_completion_reason`
(`post_generator.py` lines 102 to 111), applied to the graph's final
state. -/
def determine_completion_reason_linear (result : PostState) : String :=
  if result.verify_result = some Check.pass ∧ result.revision_count = 1 then
    "perfect_first_attempt"
  else if result.verify_result = some Check.pass then "quality_achieved"
  else if result.revision_count ≥ 3 then "max_retries_reached"
  else "completed_successfully"

/-- `SupervisedPostGeneratorService._determine_completion_reason`
(`supervised_post_generator.py` lines 140 to 149): identical to the
linear version except for the final default. -/
def determine_completion_reason_supervised (result : PostState) : String :=
  if result.verify_result = some Check.pass ∧ result.revision_count = 1 then
    "perfect_first_attempt"
  else if result.verify_result = some Check.pass then "quality_achieved"
  else if result.revision_count ≥ 3 then "max_retries_reached"
  else "unknown"

/-- The data of a caught Python exception: its class name
(`type(e).__name__`) and its message (`str(e)`). -/
structure ErrorInfo where
  name : String
  msg : String
deriving DecidableEq, Repr

/-- `SupervisedPostGeneratorService._get_recovery_suggestions`
(`supervised_post_generator.py` lines 162 to 182): appends suggestion
pairs for the credential, timeout and model-availability patterns found in
the error text, with a generic default when none matched. -/
def get_recovery_suggestions (errMsg : String) : List String :=
  let suggestions :=
    (if strContains errMsg "API" || strContains (strLower errMsg) "key" then
      ["Check OpenAI API key validity", "Verify API quota and billing"] else []) ++
    (if strContains (strLower errMsg) "timeout" then
      ["Retry with shorter timeout", "Check network connectivity"] else []) ++
    (if strContains (strLower errMsg) "model" then
      ["Try different model version", "Check model availability"] else [])
  if suggestions = [] then
    ["Try again with different input", "Check system logs for details"]
  else suggestions

/-- The `supervisor_insights` payload of the failure record. -/
structure ErrorInsights where
  error_type : String
  error_message : String
  recovery_suggestions : List String
deriving DecidableEq, Repr

/-- The failure record returned by
`SupervisedPostGeneratorService.generate_post`'s `except` branch
(`supervised_post_generator.py` lines 77 to 94). `quality_metrics` is the
empty dict there, modelled as its (empty) key list. -/
structure ErrorRunRecord where
  error : String
  summary : String
  post : String
  verify_result : String
  revision_count : Nat
  tech_check : String
  style_check : String
  supervisor_insights : ErrorInsights
  workflow_pattern : String
  quality_metrics : List String
deriving DecidableEq, Repr

/-- `SupervisedPostGeneratorService.generate_post`, `except` branch: the
single failure record handed to the caller when any exception escapes
`graph.invoke`. -/
def generate_post_error_record (use_supervisor : Bool) (e : ErrorInfo) : ErrorRunRecord :=
  { error := e.msg
    summary := ""
    post := "Error occurred during generation"
    verify_result := "error"
    revision_count := 0
    tech_check := "error"
    style_check := "error"
    supervisor_insights :=
      { error_type := e.name
        error_message := e.msg
        recovery_suggestions := get_recovery_suggestions e.msg }
    workflow_pattern := if use_supervisor then "supervised" else "linear"
    quality_metrics := [] }

/-- Values appearing in a returned run-record dict. Python float divisions
are kept exact as a numerator/denominator pair (`frac`). -/
inductive RVal where
  | s (v : String)
  | n (v : Nat)
  | b (v : Bool)
  | frac (num den : Nat)
  | strs (v : List String)
  | obj (fields : List (String × RVal))

/-- The five boolean quality factors of `_calculate_overall_quality`
(identical in `post_generator.py` and `supervised_post_generator.py`). -/
def overall_quality_factors (result : PostState) : List Bool :=
  [decide (result.tech_check = some Check.pass),
   decide (result.style_check = some Check.pass),
   decide (result.revision_count ≤ 2),
   strContains result.post "@AIMakerspace",
   decide (50 ≤ result.post.length ∧ result.post.length ≤ 300)]

/-- Python `sum(factors)` over the five booleans. -/
def overall_quality_num (result : PostState) : Nat :=
  ((overall_quality_factors result).filter id).length

/-- `_calculate_quality_metrics` (identical in both generator services),
as the key/value list of the produced dict. -/
def calculate_quality_metrics (result : PostState) : List (String × RVal) :=
  [("post_length", RVal.n result.post.length),
   ("summary_length", RVal.n result.summary.length),
   ("character_efficiency",
     if result.post ≠ "" then RVal.frac result.post.length 300 else RVal.n 0),
   ("mention_compliance",
     RVal.b (if result.post ≠ "" then strContains result.post "@AIMakerspace" else false)),
   ("technical_accuracy", RVal.b (decide (result.tech_check = some Check.pass))),
   ("style_compliance", RVal.b (decide (result.style_check = some Check.pass))),
   ("overall_quality", RVal.frac (overall_quality_num result) 5)]

/-- `PostGeneratorService._calculate_linear_insights`
(`post_generator.py` lines 52 to 77). -/
def calculate_linear_insights (result : PostState) : List (String × RVal) :=
  let completed_steps :=
    (if result.summary ≠ "" then ["research", "summarize"] else []) ++
    (if result.post ≠ "" then ["post"] else []) ++
    (if result.verify_result.isSome then ["verify"] else [])
  [("completed_steps", RVal.strs completed_steps),
   ("workflow_efficiency", RVal.frac completed_steps.length 4),
   ("revision_efficiency", RVal.frac 1 (max 1 result.revision_count)),
   ("completion_reason", RVal.s (determine_completion_reason_linear result)),
   ("workflow_type", RVal.s "linear_sequential")]

/-- `SupervisedPostGeneratorService._extract_supervisor_insights`
(`supervised_post_generator.py` lines 96 to 115). The
`supervisor_decisions` key is read with default `[]` from a status record
that never sets it, so it is always the empty list. -/
def extract_supervisor_insights (result : PostState) : List (String × RVal) :=
  let steps := match result.supervisor_status with
    | some st => st.completed_steps
    | none => []
  [("completed_steps", RVal.strs steps),
   ("workflow_efficiency", RVal.frac steps.length 4),
   ("revision_efficiency", RVal.frac 1 (max 1 result.revision_count)),
   ("verification_details", RVal.obj (match result.supervisor_status with
      | some st =>
        [("tech_check", RVal.s st.verification_status.tech_check),
         ("style_check", RVal.s st.verification_status.style_check),
         ("overall", RVal.s st.verification_status.overall)]
      | none => [])),
   ("completion_reason", RVal.s (determine_completion_reason_supervised result)),
   ("supervisor_decisions", RVal.strs [])]

/-- The success record returned by `PostGeneratorService.generate_post`
(`post_generator.py` lines 39 to 50), as the key/value list of the
returned dict, in source order. -/
def linear_run_record (result : PostState) : List (String × RVal) :=
  [("summary", RVal.s result.summary),
   ("post", RVal.s result.post),
   ("verify_result", RVal.s (optCheckStr result.verify_result "")),
   ("revision_count", RVal.n result.revision_count),
   ("tech_check", RVal.s (optCheckStr result.tech_check "")),
   ("style_check", RVal.s (optCheckStr result.style_check "")),
   ("supervisor_insights", RVal.obj (calculate_linear_insights result)),
   ("workflow_pattern", RVal.s "linear"),
   ("quality_metrics", RVal.obj (calculate_quality_metrics result))]

/-- The success record returned by
`SupervisedPostGeneratorService.generate_post`
(`supervised_post_generator.py` lines 64 to 75), as the key/value list of
the returned dict, in source order. -/
def supervised_run_record (use_supervisor : Bool) (result : PostState) :
    List (String × RVal) :=
  [("summary", RVal.s result.summary),
   ("post", RVal.s result.post),
   ("verify_result", RVal.s (optCheckStr result.verify_result "")),
   ("revision_count", RVal.n result.revision_count),
   ("tech_check", RVal.s (optCheckStr result.tech_check "")),
   ("style_check", RVal.s (optCheckStr result.style_check "")),
   ("supervisor_insights", RVal.obj (extract_supervisor_insights result)),
   ("workflow_pattern", RVal.s (if use_supervisor then "supervised" else "linear")),
   ("quality_metrics", RVal.obj (calculate_quality_metrics result))]

/-- The specification's verification decision table (§4.2), written from
the spec's words for comparison with the source wrappers: both checkers
pass, else the revision ceiling, else revise. -/
def spec_verify_decision (tech style : Check) (revision_count : Nat) : Check :=
  if tech = Check.pass ∧ style = Check.pass then Check.pass
  else if revision_count ≥ 3 then Check.pass
  else Check.revise

/-- Variant of the verification step in which the increment is applied to
the state's count before the decision and the decision then reads the
already incremented count — the other reading order the claim about the
decision table declares interchangeable. -/
def verify_wrapper_increment_first (state : PostState) : PostState :=
  let st := { state with revision_count := state.revision_count + 1 }
  let tech_result := verify_technical_correctness st.summary
  let style_result := check_social_post_style st.post
  let verify_result :=
    if tech_result = Check.pass ∧ style_result = Check.pass then Check.pass
    else if st.revision_count ≥ 3 then Check.pass
    else Check.revise
  { st with
      verify_result := some verify_result
      tech_check := some tech_result
      style_check := some style_result }

/-- The supervised router's successor table as the code actually orders
it, written from the amended claim's words (match on the outcome; on
`revise` the count bound decides; on an unset outcome the count ceiling is
still consulted before falling back to `verify`). -/
def spec_supervisor_router_amended (state : PostState) : RouteTarget :=
  if state.summary = "" then
    if state.messages = [] then RouteTarget.END
    else if strContains (msgsStr state.messages) "research" then RouteTarget.summarize
    else RouteTarget.research
  else if state.post = "" then RouteTarget.draft_post
  else
    match state.verify_result, state.revision_count with
    | some Check.pass, _ => RouteTarget.END
    | some Check.revise, rc => if rc < 3 then RouteTarget.draft_post else RouteTarget.END
    | none, rc => if rc ≥ 3 then RouteTarget.END else RouteTarget.verify

/-- Whether advisory free text matches the routing vocabulary the code
actually tests (lower-cased substring match against research, summarize,
post, verify). -/
def matchesRoutingVocab (text : String) : Bool :=
  strContains (strLower text) "research" || strContains (strLower text) "summarize" ||
  strContains (strLower text) "post" || strContains (strLower text) "verify"

/-- Example state for the verification-step order question: checkers will
fail (no "LoRA", no marker) and the revision count sits at 2, one below
the ceiling. -/
def c1_state : PostState :=
  { messages := ["m"], summary := "", post := "", verify_result := none,
    revision_count := 2, tech_check := none, style_check := none,
    supervisor_status := none }

/-- Example post-verify-phase state: summary and post set, verification
outcome still unset, revision count at the ceiling. -/
def c3_state : PostState :=
  { messages := ["m"], summary := "s", post := "p", verify_result := none,
    revision_count := 3, tech_check := none, style_check := none,
    supervisor_status := none }

/-- Example fresh state (no summary yet) for routing: the deterministic
fallback would choose research here. -/
def c4_state : PostState :=
  { messages := ["m"], summary := "", post := "", verify_result := none,
    revision_count := 0, tech_check := none, style_check := none,
    supervisor_status := none }

/-- Example non-terminal state: outcome revise, count below the ceiling. -/
def c6_state : PostState :=
  { messages := ["m"], summary := "s", post := "p",
    verify_result := some Check.revise, revision_count := 0,
    tech_check := none, style_check := none, supervisor_status := none }

/-- Example final state: outcome pass at revision count 1. -/
def c6_state_pass1 : PostState :=
  { messages := ["m"], summary := "s", post := "p",
    verify_result := some Check.pass, revision_count := 1,
    tech_check := none, style_check := none, supervisor_status := none }

/-- Example final state: outcome pass at revision count 2. -/
def c6_state_pass2 : PostState :=
  { messages := ["m"], summary := "s", post := "p",
    verify_result := some Check.pass, revision_count := 2,
    tech_check := none, style_check := none, supervisor_status := none }

/-- Example final state: outcome revise at the revision ceiling. -/
def c6_state_revise3 : PostState :=
  { messages := ["m"], summary := "s", post := "p",
    verify_result := some Check.revise, revision_count := 3,
    tech_check := none, style_check := none, supervisor_status := none }

/-- Example state as the conditional edge after the verify node sees it:
summary and post set, outcome revise below the ceiling. -/
def c9_state : PostState :=
  { messages := ["m"], summary := "s", post := "p",
    verify_result := some Check.revise, revision_count := 1,
    tech_check := none, style_check := none, supervisor_status := none }

/-- A checker pass on the technical tool forces a nonempty summary. -/
theorem tech_pass_nonempty (s : String)
    (h : verify_technical_correctness s = Check.pass) : s ≠ "" := by
  intro he
  subst he
  exact absurd h (by decide)

/-- A checker pass on the style tool forces a nonempty post. -/
theorem style_pass_nonempty (p : String)
    (h : check_social_post_style p = Check.pass) : p ≠ "" := by
  intro he
  subst he
  exact absurd h (by decide)

/-- The recovery-suggestion list is never empty: a generic default fills
in when no error pattern matched. -/
theorem recovery_suggestions_nonempty (msg : String) :
    get_recovery_suggestions msg ≠ [] := by
  unfold get_recovery_suggestions
  split_ifs <;> simp_all

/-- C1 (counterexample): the claim's order-indifference clause fails. At a
state with failing checkers and revision count 2, the source step (which
decides on the input count) answers revise, while the variant that reads
the count after the increment answers pass: the choice of reading the
count before or after the increment does change which branch of the table
is taken. -/
theorem C1_order_choice_counterexample :
    (verify_wrapper c1_state).verify_result = some Check.revise ∧
    (verify_wrapper_increment_first c1_state).verify_result = some Check.pass ∧
    (verify_wrapper c1_state).verify_result ≠
      (verify_wrapper_increment_first c1_state).verify_result := by
  decide

/-- C1 (amended): one execution of either verification step sets
verify_result to pass when both checkers pass, otherwise to pass when the
input state's revision_count is at least 3, otherwise to revise — the
decision reading the pre-increment (input) count — and sets the output
revision_count to the input count plus exactly 1, unconditionally. -/
theorem C1_verify_decision_table (state : PostState) :
    (verify_wrapper state).verify_result =
      some (spec_verify_decision (verify_technical_correctness state.summary)
        (check_social_post_style state.post) state.revision_count) ∧
    (verify_wrapper state).revision_count = state.revision_count + 1 ∧
    (enhanced_verify_wrapper state).verify_result =
      some (spec_verify_decision (verify_technical_correctness state.summary)
        (check_social_post_style state.post) state.revision_count) ∧
    (enhanced_verify_wrapper state).revision_count = state.revision_count + 1 :=
  ⟨rfl, rfl, rfl, rfl⟩

/-- C2 (counterexample): in the linear graph with checkers that always
revise (empty summary, empty drafts), the run performs 4 draft executions
and ends with a forced pass at revision_count 4 — not 3 drafts ending at
revision_count 3 as the claim states. -/
theorem C2_forced_accept_counterexample :
    (runLinear "" fun _ => "").2 = 4 ∧
    (runLinear "" fun _ => "").1.revision_count = 4 ∧
    (runLinear "" fun _ => "").1.verify_result = some Check.pass ∧
    ¬((runLinear "" fun _ => "").2 = 3 ∧
      (runLinear "" fun _ => "").1.revision_count = 3) := by
  decide

/-- C2 (amended): for every linear run in which the checkers return revise
on every call, the draft/verify loop repeats with revise through the
first three verification calls; the fourth verification call, reading
input revision_count 3, forces pass, so exactly 4 draft executions occur
and the run ends with verify_result pass at revision_count 4. -/
theorem C2_forced_accept_amended (summary : String) (draft : Nat → String)
    (ht : verify_technical_correctness summary = Check.revise)
    (hs : ∀ i, check_social_post_style (draft i) = Check.revise) :
    (runLinear summary draft).2 = 4 ∧
    (runLinear summary draft).1.revision_count = 4 ∧
    (runLinear summary draft).1.verify_result = some Check.pass := by
  simp [runLinear, postSummarizeState, linearLoop, verify_wrapper, ht, hs]

/-- C2 (witness): the amended statement instantiated with an empty summary
and empty drafts, on which both checkers return revise on every call. -/
theorem C2_forced_accept_amended_witness :
    verify_technical_correctness "" = Check.revise ∧
    check_social_post_style "" = Check.revise ∧
    ((runLinear "" fun _ => "").2 = 4 ∧
     (runLinear "" fun _ => "").1.revision_count = 4 ∧
     (runLinear "" fun _ => "").1.verify_result = some Check.pass) :=
  ⟨by decide, by decide,
    C2_forced_accept_amended "" (fun _ => "") (by decide)
      (fun _ => (by decide : check_social_post_style "" = Check.revise))⟩

/-- C3 (counterexample): at a state with summary and post set, the
verification outcome unset and revision_count 3, the router terminates
(the count-ceiling branch precedes the unset-outcome fallback), whereas
the claim's precedence order requires verify. -/
theorem C3_router_counterexample :
    supervisor_router c3_state = RouteTarget.END ∧
    supervisor_router c3_state ≠ RouteTarget.verify := by
  decide

/-- C3 (amended): the supervised router's actual precedence — summary
absent (terminate on empty messages, else research or summarize by the
message text); else post absent, draft; else outcome pass, terminate;
else outcome revise with revision_count below 3, draft; else
revision_count at least 3 (outcome revise or unset), terminate; else
(outcome unset, count below 3) verify. -/
theorem C3_router_precedence_amended (s : PostState) :
    supervisor_router s = spec_supervisor_router_amended s := by
  rcases s with ⟨ms, sum, post, vr, rc, tc, sc, ss⟩
  rcases vr with _ | c
  · simp only [supervisor_router, spec_supervisor_router_amended]
    split_ifs <;> simp_all
  · rcases c <;>
      simp only [supervisor_router, spec_supervisor_router_amended] <;>
      split_ifs <;> simp_all

/-- C4 (counterexample): with the advisor available and returning free
text matching none of the vocabulary, the routing policy answers
complete, not the deterministic fallback's choice (research, for a state
with no summary). -/
theorem C4_advisor_fallback_counterexample :
    route_next_agent true (some "xyz") c4_state = AgentName.complete ∧
    simple_routing_logic c4_state = AgentName.research ∧
    route_next_agent true (some "xyz") c4_state ≠ simple_routing_logic c4_state := by
  decide

/-- C4 (amended): when the advisory capability is unavailable (no API key)
or its invocation raises, the routing policy returns exactly the
deterministic fallback's choice; when the advisor returns free text
matching none of the vocabulary research/summarize/post/verify
(lower-cased substring match), the policy returns complete instead of the
fallback's choice; routing is a total function and never raises. -/
theorem C4_advisor_fallback_amended (resp : Option String) (text : String)
    (state : PostState) (h : matchesRoutingVocab text = false) :
    route_next_agent false resp state = simple_routing_logic state ∧
    route_next_agent true none state = simple_routing_logic state ∧
    route_next_agent true (some text) state = AgentName.complete := by
  refine ⟨rfl, rfl, ?_⟩
  simp only [matchesRoutingVocab, Bool.or_eq_false_iff] at h
  simp [route_next_agent, h.1.1.1, h.1.1.2, h.1.2, h.2]

/-- C4 (witness): the amended statement instantiated at a fresh state with
advisor text matching none of the vocabulary. -/
theorem C4_advisor_fallback_amended_witness :
    matchesRoutingVocab "xyz" = false ∧
    (route_next_agent false (some "xyz") c4_state = simple_routing_logic c4_state ∧
     route_next_agent true none c4_state = simple_routing_logic c4_state ∧
     route_next_agent true (some "xyz") c4_state = AgentName.complete) :=
  ⟨by decide, C4_advisor_fallback_amended (some "xyz") "xyz" c4_state (by decide)⟩

/-- C5: for every run (linear and supervised) in which both checkers pass
on the first verification call, the final state has verify_result pass
and revision_count 1, and both reporters' completion_reason for that
final state is perfect_first_attempt; the supervised run terminates after
that single draft/verify pass. -/
theorem C5_perfect_first_attempt (summary : String) (draft : Nat → String)
    (ht : verify_technical_correctness summary = Check.pass)
    (hs : check_social_post_style (draft 0) = Check.pass) :
    ((runLinear summary draft).1.verify_result = some Check.pass ∧
     (runLinear summary draft).1.revision_count = 1 ∧
     determine_completion_reason_linear (runLinear summary draft).1 =
       "perfect_first_attempt") ∧
    ∃ fin, runSupervised summary draft = some (fin, 1) ∧
      fin.verify_result = some Check.pass ∧ fin.revision_count = 1 ∧
      determine_completion_reason_supervised fin = "perfect_first_attempt" := by
  have hsum := tech_pass_nonempty _ ht
  have hpost := style_pass_nonempty _ hs
  constructor
  · simp [runLinear, postSummarizeState, linearLoop, verify_wrapper,
      determine_completion_reason_linear, ht, hs]
  refine ⟨enhanced_verify_wrapper { postSummarizeState summary with post := draft 0 },
    ?_, ?_, ?_, ?_⟩
  · simp [runSupervised, supervisedLoop, postSummarizeState, supervisor_router,
      enhanced_verify_wrapper, ht, hs, hsum, hpost]
  · simp [enhanced_verify_wrapper, postSummarizeState, ht, hs]
  · simp [enhanced_verify_wrapper, postSummarizeState]
  · simp [determine_completion_reason_supervised, enhanced_verify_wrapper,
      postSummarizeState, ht, hs]

/-- C5 (witness): both checkers pass immediately for the summary "LoRA"
and the draft "@AIMakerspace". -/
theorem C5_perfect_first_attempt_witness :
    verify_technical_correctness "LoRA" = Check.pass ∧
    check_social_post_style "@AIMakerspace" = Check.pass ∧
    (((runLinear "LoRA" fun _ => "@AIMakerspace").1.verify_result = some Check.pass ∧
      (runLinear "LoRA" fun _ => "@AIMakerspace").1.revision_count = 1 ∧
      determine_completion_reason_linear
        (runLinear "LoRA" fun _ => "@AIMakerspace").1 = "perfect_first_attempt") ∧
     ∃ fin, runSupervised "LoRA" (fun _ => "@AIMakerspace") = some (fin, 1) ∧
       fin.verify_result = some Check.pass ∧ fin.revision_count = 1 ∧
       determine_completion_reason_supervised fin = "perfect_first_attempt") :=
  ⟨by decide, by decide,
    C5_perfect_first_attempt "LoRA" (fun _ => "@AIMakerspace") (by decide)
      (by decide : check_social_post_style "@AIMakerspace" = Check.pass)⟩

/-- C6 (counterexample): at a non-terminal state (outcome revise, count
0), the linear reporter returns completed_successfully — a success-shaped
marker, not the in_progress/unknown marker the claim requires of both
reporters — while the supervised reporter returns unknown. -/
theorem C6_reason_counterexample :
    determine_completion_reason_linear c6_state = "completed_successfully" ∧
    determine_completion_reason_linear c6_state ≠ "in_progress" ∧
    determine_completion_reason_linear c6_state ≠ "unknown" ∧
    determine_completion_reason_supervised c6_state = "unknown" := by
  decide

/-- C6 (amended): both reporters return perfect_first_attempt when the
outcome is pass with revision_count 1, quality_achieved when the outcome
is pass with any other count, and max_retries_reached when the outcome is
not pass and revision_count is at least 3; in the remaining case the
linear reporter returns completed_successfully and the supervised
reporter returns unknown. -/
theorem C6_completion_reason_amended (result : PostState) :
    (result.verify_result = some Check.pass ∧ result.revision_count = 1 →
      determine_completion_reason_linear result = "perfect_first_attempt" ∧
      determine_completion_reason_supervised result = "perfect_first_attempt") ∧
    (result.verify_result = some Check.pass ∧ result.revision_count ≠ 1 →
      determine_completion_reason_linear result = "quality_achieved" ∧
      determine_completion_reason_supervised result = "quality_achieved") ∧
    (result.verify_result ≠ some Check.pass ∧ result.revision_count ≥ 3 →
      determine_completion_reason_linear result = "max_retries_reached" ∧
      determine_completion_reason_supervised result = "max_retries_reached") ∧
    (result.verify_result ≠ some Check.pass ∧ result.revision_count < 3 →
      determine_completion_reason_linear result = "completed_successfully" ∧
      determine_completion_reason_supervised result = "unknown") := by
  unfold determine_completion_reason_linear determine_completion_reason_supervised
  refine ⟨fun h => ?_, fun h => ?_, fun h => ?_, fun h => ?_⟩ <;>
    obtain ⟨h1, h2⟩ := h <;> split_ifs <;> simp_all <;> omega

/-- C6 (witness): the amended statement exercised on four concrete final
states, one per branch of the table. -/
theorem C6_completion_reason_amended_witness :
    (determine_completion_reason_linear c6_state_pass1 = "perfect_first_attempt" ∧
     determine_completion_reason_supervised c6_state_pass1 = "perfect_first_attempt") ∧
    (determine_completion_reason_linear c6_state_pass2 = "quality_achieved" ∧
     determine_completion_reason_supervised c6_state_pass2 = "quality_achieved") ∧
    (determine_completion_reason_linear c6_state_revise3 = "max_retries_reached" ∧
     determine_completion_reason_supervised c6_state_revise3 = "max_retries_reached") ∧
    (determine_completion_reason_linear c6_state = "completed_successfully" ∧
     determine_completion_reason_supervised c6_state = "unknown") :=
  ⟨(C6_completion_reason_amended c6_state_pass1).1 (by decide),
   (C6_completion_reason_amended c6_state_pass2).2.1 (by decide),
   (C6_completion_reason_amended c6_state_revise3).2.2.1 (by decide),
   (C6_completion_reason_amended c6_state).2.2.2 (by decide)⟩

/-- C7: when any exception escapes graph execution, the caller receives
the single failure record: verify_result is the string error, the content
fields are empty or placeholder, and the diagnostics payload carries the
error kind, the error message and a never-empty suggestion list in which
the credential, timeout and model-availability hints appear whenever the
corresponding pattern occurs in the error text. -/
theorem C7_error_record_shape (use_supervisor : Bool) (e : ErrorInfo) :
    (generate_post_error_record use_supervisor e).verify_result = "error" ∧
    (generate_post_error_record use_supervisor e).summary = "" ∧
    (generate_post_error_record use_supervisor e).post =
      "Error occurred during generation" ∧
    (generate_post_error_record use_supervisor e).tech_check = "error" ∧
    (generate_post_error_record use_supervisor e).style_check = "error" ∧
    (generate_post_error_record use_supervisor e).quality_metrics = [] ∧
    (generate_post_error_record use_supervisor e).supervisor_insights.error_type =
      e.name ∧
    (generate_post_error_record use_supervisor e).supervisor_insights.error_message =
      e.msg ∧
    (generate_post_error_record use_supervisor e).supervisor_insights.recovery_suggestions
      ≠ [] ∧
    (strContains e.msg "API" = true →
      "Check OpenAI API key validity" ∈
        (generate_post_error_record use_supervisor e).supervisor_insights.recovery_suggestions) ∧
    (strContains (strLower e.msg) "timeout" = true →
      "Retry with shorter timeout" ∈
        (generate_post_error_record use_supervisor e).supervisor_insights.recovery_suggestions) ∧
    (strContains (strLower e.msg) "model" = true →
      "Try different model version" ∈
        (generate_post_error_record use_supervisor e).supervisor_insights.recovery_suggestions) := by
  refine ⟨rfl, rfl, rfl, rfl, rfl, rfl, rfl, rfl,
    recovery_suggestions_nonempty e.msg, ?_, ?_, ?_⟩
  · intro h
    simp [generate_post_error_record, get_recovery_suggestions, h]
  · intro h
    simp [generate_post_error_record, get_recovery_suggestions, h]
  · intro h
    simp [generate_post_error_record, get_recovery_suggestions, h]

/-- C7 (witness): the failure record for an error whose text carries all
three patterns (credential, timeout, model availability). -/
theorem C7_error_record_shape_witness :
    strContains "API timeout while loading model" "API" = true ∧
    strContains (strLower "API timeout while loading model") "timeout" = true ∧
    strContains (strLower "API timeout while loading model") "model" = true ∧
    (generate_post_error_record true
      ⟨"AuthenticationError", "API timeout while loading model"⟩).verify_result =
      "error" ∧
    (generate_post_error_record true
      ⟨"AuthenticationError", "API timeout while loading model"⟩).supervisor_insights.recovery_suggestions
      ≠ [] ∧
    "Check OpenAI API key validity" ∈
      (generate_post_error_record true
        ⟨"AuthenticationError", "API timeout while loading model"⟩).supervisor_insights.recovery_suggestions ∧
    "Retry with shorter timeout" ∈
      (generate_post_error_record true
        ⟨"AuthenticationError", "API timeout while loading model"⟩).supervisor_insights.recovery_suggestions ∧
    "Try different model version" ∈
      (generate_post_error_record true
        ⟨"AuthenticationError", "API timeout while loading model"⟩).supervisor_insights.recovery_suggestions := by
  obtain ⟨h1, h2, h3, h4, h5, h6, h7, h8, h9, h10, h11, h12⟩ :=
    C7_error_record_shape true ⟨"AuthenticationError", "API timeout while loading model"⟩
  exact ⟨by decide, by decide, by decide, h1, h9,
    h10 (by decide), h11 (by decide), h12 (by decide)⟩

/-- C8: the success records of the linear and the supervised generator
carry the identical top-level field list — summary, post, verify_result,
revision_count, tech_check, style_check, supervisor_insights,
workflow_pattern, quality_metrics — for every pair of final states and
either supervising mode. -/
theorem C8_record_key_sets (use_supervisor : Bool) (r1 r2 : PostState) :
    (linear_run_record r1).map Prod.fst =
      (supervised_run_record use_supervisor r2).map Prod.fst := rfl

/-- C9: for every state with nonempty summary and post and a verification
outcome of pass or revise — the shape of every state the conditional edge
after the supervised verify node hands to the router — the router answers
only draft_post or the terminal signal, so the edge mapping that lists
only those two targets is never asked to resolve an unmapped one. -/
theorem C9_router_closed_after_verify (s : PostState) (hsum : s.summary ≠ "")
    (hpost : s.post ≠ "")
    (hv : s.verify_result = some Check.pass ∨ s.verify_result = some Check.revise) :
    supervisor_router s = RouteTarget.draft_post ∨
      supervisor_router s = RouteTarget.END := by
  rcases hv with h | h
  · right
    simp [supervisor_router, hsum, hpost, h]
  · simp only [supervisor_router, hsum, hpost, h]
    split_ifs <;> simp_all

/-- C9 (witness): the closure property at a concrete post-verify state
with outcome revise below the ceiling. -/
theorem C9_router_closed_after_verify_witness :
    c9_state.summary ≠ "" ∧ c9_state.post ≠ "" ∧
    (supervisor_router c9_state = RouteTarget.draft_post ∨
      supervisor_router c9_state = RouteTarget.END) :=
  ⟨by decide, by decide,
    C9_router_closed_after_verify c9_state (by decide) (by decide) (Or.inr rfl)⟩

/-- C10: on every input state the linear verify wrapper and the supervised
enhanced verify wrapper agree on verify_result, revision_count,
tech_check and style_check (and on the untouched content fields); the
enhanced wrapper differs exactly by attaching supervisor_status, leaving
every other field of the output state equal. -/
theorem C10_wrapper_refinement (s : PostState) :
    (enhanced_verify_wrapper s).verify_result = (verify_wrapper s).verify_result ∧
    (enhanced_verify_wrapper s).revision_count = (verify_wrapper s).revision_count ∧
    (enhanced_verify_wrapper s).tech_check = (verify_wrapper s).tech_check ∧
    (enhanced_verify_wrapper s).style_check = (verify_wrapper s).style_check ∧
    (enhanced_verify_wrapper s).messages = (verify_wrapper s).messages ∧
    (enhanced_verify_wrapper s).summary = (verify_wrapper s).summary ∧
    (enhanced_verify_wrapper s).post = (verify_wrapper s).post ∧
    enhanced_verify_wrapper s =
      { verify_wrapper s with
          supervisor_status := some (get_workflow_status (verify_wrapper s)) } :=
  ⟨rfl, rfl, rfl, rfl, rfl, rfl, rfl, rfl⟩
